import Mathlib

/-!
# egistec::ganges::BiometricsFingerprint

A shallow embedding of `src/egistec/ganges/BiometricsFingerprint.cpp`.

The adapter object is a record of its member variables.  Every collaborator
that the source only calls (the trustlet, the keymaster, the sensor device,
the client callback) is an input of the model: the trustlet is a record of
the answers it gives, and every call made on a collaborator is appended, in
program order, to a list of events.  A member function is a pure function
from the object to a `Call`: the value returned (if the call returns), the
events it produced, and the object afterwards.
-/

namespace egistec.ganges

/-! ## Data model -/

/-- Status codes handed back to the host (the enumerators named in the source). -/
inductive RequestStatus
  | SYS_OK
  | SYS_EINVAL
  | SYS_EFAULT
  | SYS_UNKNOWN
  deriving DecidableEq, Repr

/-- The calls the source makes on `mTrustlet`, with their arguments. -/
inductive TrustletCall
  | SetDataPath (path : String)
  | SetMasterKey (key : List Nat)
  | InitializeSensor
  | InitializeAlgo
  | Calibrate
  | SetWorkMode (mode : Nat)
  | GetPrintIds (gid : Nat)
  | SetUserDataPath (gid : Nat) (path : String)
  | GetAuthenticatorId
  deriving DecidableEq, Repr

/-- The log statements of the source, one constructor per `ALOG*` line. -/
inductive LogMsg
  | preEnrollChallenge (challenge : Nat)
  | enrollGidMismatch
  | enrollTokenUnset
  | enrollStarting (hat : List Nat)
  | postEnrollClearing
  | authenticatorId (id : Nat)
  | cancelRequested
  | enumerating (n : Nat)
  | removeArgs (gid fid : Nat)
  | removeGidMismatch
  | setActiveGroupArgs (gid : Nat) (path : String)
  | authenticateArgs (gid operationId : Nat)
  | authenticateGidMismatch
  deriving DecidableEq, Repr

/-- Everything observable outside the adapter, in program order.
`onEnumerate cb deviceId fid gid remaining` is the call
`mClientCallback->onEnumerate(deviceId, fid, gid, remaining)` on the callback
object `cb`; its last argument is the value of the source expression passed
there (the callback interface itself is declared outside this source). -/
inductive Event
  | devEnable
  | getKey
  | trustlet (c : TrustletCall)
  | onEnumerate (cb deviceId fid gid remaining : Nat)
  | log (m : LogMsg)
  deriving DecidableEq, Repr

/-- The answers of the trustlet session `mTrustlet`: a return code for every
call (0 is success), and for `GetPrintIds` also the vector of print ids it
fills in. -/
structure Trustlet where
  SetDataPath : String → Int
  SetMasterKey : List Nat → Int
  InitializeSensor : Int
  InitializeAlgo : Int
  Calibrate : Int
  SetWorkMode : Nat → Int
  GetPrintIds : Nat → Int × List Nat
  SetUserDataPath : Nat → String → Int
  GetAuthenticatorId : Nat

/-- The member variables of the adapter the source reads or writes.
`thisAddr` is the address of the object (`this`), `mClientCallback` is the
strong pointer to the registered callback (`none` is the null pointer). -/
structure BiometricsFingerprint where
  thisAddr : Nat
  mMasterKey : List Nat
  mGid : Nat
  mClientCallback : Option Nat
  deriving DecidableEq, Repr

/-- The outcome of one member-function call.  `ret = none` means the call did
not return: it dereferenced a null `mClientCallback`. -/
structure Call (α : Type) where
  ret : Option α
  events : List Event
  state : BiometricsFingerprint

/-- The trustlet calls among a list of events, in order. -/
def trustletCallsOf (es : List Event) : List TrustletCall :=
  es.filterMap fun e =>
    match e with
    | Event.trustlet c => some c
    | _ => none

/-- The client-callback invocations among a list of events, in order. -/
def callbacksOf (es : List Event) : List Event :=
  es.filter fun e =>
    match e with
    | Event.onEnumerate _ _ _ _ _ => true
    | _ => false

/-- The `remaining` arguments of the callbacks among a list of events. -/
def remainingValues (es : List Event) : List Nat :=
  es.filterMap fun e =>
    match e with
    | Event.onEnumerate _ _ _ _ r => some r
    | _ => none

/-- The `fid` arguments of the callbacks among a list of events. -/
def fidValues (es : List Event) : List Nat :=
  es.filterMap fun e =>
    match e with
    | Event.onEnumerate _ _ f _ _ => some f
    | _ => none

/-! ## Construction -/

/-- The data path the constructor hands to the trustlet. -/
def fpdataPath : String := "/data/system/users/0/fpdata"

/-- The initialisation steps guarded by `LOG_ALWAYS_FATAL_IF`. -/
inductive FatalStep
  | SetDataPath
  | SetMasterKey
  | InitializeSensor
  | InitializeAlgo
  | Calibrate
  deriving DecidableEq, Repr

/-- How a run of the constructor ends: the process is aborted by
`LOG_ALWAYS_FATAL_IF` at a step, or the constructor exits by throwing
`FormatException` (no object comes into existence), or it runs to its end and
the object exists. -/
inductive Construction
  | aborted (step : FatalStep) (rc : Int)
  | threw (rc : Int)
  | constructed (obj : BiometricsFingerprint)
  deriving DecidableEq, Repr

/-- The constructor `BiometricsFingerprint::BiometricsFingerprint`.
`masterKey` is what `keymaster.GetKey()` returns; `gid0` is the value `mGid`
has before any `setActiveGroup` (its declaration is outside this source).
`mDev.Enable()` and `keymaster.GetKey()` are taken to return.  The scoped
`DeviceEnableGuard` is not traced: its class is declared outside this source. -/
def construct (T : Trustlet) (thisAddr : Nat) (masterKey : List Nat) (gid0 : Nat) :
    List Event × Construction :=
  let e0 := [Event.devEnable, Event.getKey]
  let rc1 := T.SetDataPath fpdataPath
  let e1 := e0 ++ [Event.trustlet (TrustletCall.SetDataPath fpdataPath)]
  if rc1 ≠ 0 then (e1, Construction.aborted FatalStep.SetDataPath rc1) else
  let rc2 := T.SetMasterKey masterKey
  let e2 := e1 ++ [Event.trustlet (TrustletCall.SetMasterKey masterKey)]
  if rc2 ≠ 0 then (e2, Construction.aborted FatalStep.SetMasterKey rc2) else
  let rc3 := T.InitializeSensor
  let e3 := e2 ++ [Event.trustlet TrustletCall.InitializeSensor]
  if rc3 ≠ 0 then (e3, Construction.aborted FatalStep.InitializeSensor rc3) else
  let rc4 := T.InitializeAlgo
  let e4 := e3 ++ [Event.trustlet TrustletCall.InitializeAlgo]
  if rc4 ≠ 0 then (e4, Construction.aborted FatalStep.InitializeAlgo rc4) else
  let rc5 := T.Calibrate
  let e5 := e4 ++ [Event.trustlet TrustletCall.Calibrate]
  if rc5 ≠ 0 then (e5, Construction.aborted FatalStep.Calibrate rc5) else
  let rc6 := T.SetWorkMode 2
  let e6 := e5 ++ [Event.trustlet (TrustletCall.SetWorkMode 2)]
  if rc6 ≠ 0 then (e6, Construction.threw rc6) else
  (e6, Construction.constructed
    { thisAddr := thisAddr, mMasterKey := masterKey, mGid := gid0, mClientCallback := none })

/-- Whether a run of the constructor left a live object. -/
def Construction.isConstructed : Construction → Bool
  | Construction.constructed _ => true
  | _ => false

/-- Whether a run of the constructor ended in the fatal process abort. -/
def Construction.isAborted : Construction → Bool
  | Construction.aborted _ _ => true
  | _ => false

/-! ## Member functions -/

/-- Number of values of `size_t` and of `unsigned long` (64-bit target). -/
def SIZE_MOD : Nat := 2 ^ 64

/-- The prefix decrement of a `size_t` variable: the value it has afterwards. -/
def preDecrement (r : Nat) : Nat := (r + SIZE_MOD - 1) % SIZE_MOD

/-- The function `setNotify`; `clientCallback = none` is a null pointer. -/
def setNotify (s : BiometricsFingerprint) (clientCallback : Option Nat) : Call Nat :=
  { ret := some s.thisAddr, events := [], state := { s with mClientCallback := clientCallback } }

/-- The function `preEnroll`; the challenge is `-1ul`. -/
def preEnroll (s : BiometricsFingerprint) : Call Nat :=
  { ret := some (SIZE_MOD - 1),
    events := [Event.log (LogMsg.preEnrollChallenge (SIZE_MOD - 1))],
    state := s }

/-- The function `enroll`.  `hat` is the pointer `hat.data()` reinterpreted as
a token pointer: `none` is the null pointer, `some bytes` points at the bytes
of the token (`hidl_array` is declared outside this source).  The timeout is
not used by the source. -/
def enroll (s : BiometricsFingerprint) (hat : Option (List Nat)) (gid : Nat) (_timeoutSec : Nat) :
    Call RequestStatus :=
  if gid ≠ s.mGid then
    { ret := some RequestStatus.SYS_EINVAL, events := [Event.log LogMsg.enrollGidMismatch], state := s }
  else
    match hat with
    | none =>
      { ret := some RequestStatus.SYS_EINVAL, events := [Event.log LogMsg.enrollTokenUnset], state := s }
    | some h =>
      { ret := some RequestStatus.SYS_EFAULT, events := [Event.log (LogMsg.enrollStarting h)], state := s }

/-- The function `postEnroll`. -/
def postEnroll (s : BiometricsFingerprint) : Call RequestStatus :=
  { ret := some RequestStatus.SYS_EFAULT, events := [Event.log LogMsg.postEnrollClearing], state := s }

/-- The function `getAuthenticatorId`. -/
def getAuthenticatorId (T : Trustlet) (s : BiometricsFingerprint) : Call Nat :=
  { ret := some T.GetAuthenticatorId,
    events := [Event.trustlet TrustletCall.GetAuthenticatorId,
               Event.log (LogMsg.authenticatorId T.GetAuthenticatorId)],
    state := s }

/-- The function `cancel`. -/
def cancel (s : BiometricsFingerprint) : Call RequestStatus :=
  { ret := some RequestStatus.SYS_EFAULT, events := [Event.log LogMsg.cancelRequested], state := s }

/-- The range-for loop of `enumerate`: one `onEnumerate` per print id, the
`size_t` counter decremented before each call.  The second component is
`false` when the loop did not finish because `mClientCallback` is null. -/
def enumerateLoop (cb : Option Nat) (dev gid : Nat) : List Nat → Nat → List Event × Bool
  | [], _ => ([], true)
  | fid :: rest, remaining =>
    match cb with
    | none => ([], false)
    | some c =>
      let r := enumerateLoop cb dev gid rest (preDecrement remaining)
      (Event.onEnumerate c dev fid gid (preDecrement remaining) :: r.1, r.2)

/-- The function `enumerate`. -/
def enumerate (T : Trustlet) (s : BiometricsFingerprint) : Call RequestStatus :=
  let rc := (T.GetPrintIds s.mGid).1
  let fids := (T.GetPrintIds s.mGid).2
  let e0 := [Event.trustlet (TrustletCall.GetPrintIds s.mGid)]
  if rc ≠ 0 then
    { ret := some RequestStatus.SYS_EINVAL, events := e0, state := s }
  else
    let remaining := fids.length % SIZE_MOD
    let e1 := e0 ++ [Event.log (LogMsg.enumerating remaining)]
    if remaining = 0 then
      match s.mClientCallback with
      | none => { ret := none, events := e1, state := s }
      | some c =>
        { ret := some RequestStatus.SYS_OK,
          events := e1 ++ [Event.onEnumerate c s.thisAddr 0 s.mGid 0],
          state := s }
    else
      let r := enumerateLoop s.mClientCallback s.thisAddr s.mGid fids remaining
      { ret := if r.2 then some RequestStatus.SYS_OK else none,
        events := e1 ++ r.1,
        state := s }

/-- The function `remove`. -/
def remove (s : BiometricsFingerprint) (gid fid : Nat) : Call RequestStatus :=
  let e0 := [Event.log (LogMsg.removeArgs gid fid)]
  if gid ≠ s.mGid then
    { ret := some RequestStatus.SYS_EINVAL, events := e0 ++ [Event.log LogMsg.removeGidMismatch], state := s }
  else
    { ret := some RequestStatus.SYS_EFAULT, events := e0, state := s }

/-- The function `setActiveGroup`. -/
def setActiveGroup (T : Trustlet) (s : BiometricsFingerprint) (gid : Nat) (storePath : String) :
    Call RequestStatus :=
  let e0 := [Event.log (LogMsg.setActiveGroupArgs gid storePath)]
  let s1 := { s with mGid := gid }
  let rc := T.SetUserDataPath gid storePath
  let e1 := e0 ++ [Event.trustlet (TrustletCall.SetUserDataPath gid storePath)]
  { ret := some (if rc ≠ 0 then RequestStatus.SYS_EINVAL else RequestStatus.SYS_OK),
    events := e1,
    state := s1 }

/-- The function `authenticate`. -/
def authenticate (s : BiometricsFingerprint) (operationId gid : Nat) : Call RequestStatus :=
  let e0 := [Event.log (LogMsg.authenticateArgs gid operationId)]
  if gid ≠ s.mGid then
    { ret := some RequestStatus.SYS_EINVAL, events := e0 ++ [Event.log LogMsg.authenticateGidMismatch],
      state := s }
  else
    { ret := some RequestStatus.SYS_EFAULT, events := e0, state := s }

/-- The complete report of a vector of print ids as the specification words
it, for a non-empty vector: one callback per id, in the vector's order, whose
`remaining` is the number of ids still to come. -/
def countdown (cb dev gid : Nat) : List Nat → List Event
  | [] => []
  | fid :: rest => Event.onEnumerate cb dev fid gid rest.length :: countdown cb dev gid rest

/-- The complete report of an enumeration as the specification words it: the
sentinel callback when there are no prints, the countdown otherwise. -/
def completeReport (cb dev gid : Nat) (fids : List Nat) : List Event :=
  if fids = [] then [Event.onEnumerate cb dev 0 gid 0] else countdown cb dev gid fids

/-! ## Sample inputs -/

/-- A trustlet all of whose calls succeed and which reports the given print
ids for every group. -/
def trustletReporting (fids : List Nat) : Trustlet :=
  { SetDataPath := fun _ => 0,
    SetMasterKey := fun _ => 0,
    InitializeSensor := 0,
    InitializeAlgo := 0,
    Calibrate := 0,
    SetWorkMode := fun _ => 0,
    GetPrintIds := fun _ => (0, fids),
    SetUserDataPath := fun _ _ => 0,
    GetAuthenticatorId := 0 }

/-- A trustlet whose `GetPrintIds` and `SetUserDataPath` fail with code `rc`,
after leaving `fids` in the output vector. -/
def trustletRejecting (rc : Int) (fids : List Nat) : Trustlet :=
  { trustletReporting fids with
    GetPrintIds := fun _ => (rc, fids),
    SetUserDataPath := fun _ _ => rc }

/-- A trustlet whose `InitializeSensor` fails with code `rc`. -/
def trustletSensorFails (rc : Int) : Trustlet :=
  { trustletReporting [] with InitializeSensor := rc }

/-- A trustlet whose `SetWorkMode` fails with code `rc`; all else succeeds. -/
def trustletWorkModeFails (rc : Int) : Trustlet :=
  { trustletReporting [] with SetWorkMode := fun _ => rc }

/-- An adapter with active group 10 and callback object 1 registered. -/
def sampleObject : BiometricsFingerprint :=
  { thisAddr := 4096, mMasterKey := [1, 2, 3], mGid := 10, mClientCallback := some 1 }

/-- The adapter as the constructor leaves it, with group 10 as the initial
`mGid`: no callback has been registered yet. -/
def freshObject : BiometricsFingerprint :=
  { thisAddr := 4096, mMasterKey := [1, 2, 3], mGid := 10, mClientCallback := none }

/-- A 69-byte authentication token all of whose bytes are zero. -/
def zeroToken : List Nat := List.replicate 69 0

/-! ## Lemmas on the enumeration loop -/

theorem preDecrement_succ (n : Nat) (h : n + 1 < SIZE_MOD) : preDecrement (n + 1) = n := by
  unfold preDecrement
  unfold SIZE_MOD at *
  omega

theorem enumerateLoop_registered (c dev gid : Nat) (fids : List Nat)
    (h : fids.length < SIZE_MOD) :
    enumerateLoop (some c) dev gid fids fids.length = (countdown c dev gid fids, true) := by
  induction fids with
  | nil => rfl
  | cons fid rest ih =>
    have hlen : rest.length + 1 < SIZE_MOD := by simpa using h
    have hrest : rest.length < SIZE_MOD := by omega
    simp only [enumerateLoop, List.length_cons, preDecrement_succ rest.length hlen, ih hrest,
      countdown]

theorem enumerateLoop_null (dev gid fid : Nat) (rest : List Nat) (r : Nat) :
    enumerateLoop none dev gid (fid :: rest) r = ([], false) := rfl

theorem callbacksOf_countdown (c dev gid : Nat) (fids : List Nat) :
    callbacksOf (countdown c dev gid fids) = countdown c dev gid fids := by
  induction fids with
  | nil => rfl
  | cons fid rest ih =>
    unfold callbacksOf at ih
    simp [countdown, callbacksOf, ih]

theorem trustletCallsOf_countdown (c dev gid : Nat) (fids : List Nat) :
    trustletCallsOf (countdown c dev gid fids) = [] := by
  induction fids with
  | nil => rfl
  | cons fid rest ih =>
    unfold trustletCallsOf at ih
    simp [countdown, trustletCallsOf, ih]

theorem countdown_length (c dev gid : Nat) (fids : List Nat) :
    (countdown c dev gid fids).length = fids.length := by
  induction fids with
  | nil => rfl
  | cons fid rest ih => simp [countdown, ih]

theorem countdown_getElem? (c dev gid : Nat) (fids : List Nat) (i : Nat) :
    (countdown c dev gid fids)[i]? =
      (fids[i]?).map fun f => Event.onEnumerate c dev f gid (fids.length - 1 - i) := by
  induction fids generalizing i with
  | nil => simp [countdown]
  | cons fid rest ih =>
    cases i with
    | zero => simp [countdown]
    | succ j =>
      simp only [countdown, List.getElem?_cons_succ, ih j, List.length_cons]
      congr 1
      funext f
      congr 1
      omega

theorem remainingValues_countdown (c dev gid : Nat) (fids : List Nat) :
    remainingValues (countdown c dev gid fids) = (List.range fids.length).reverse := by
  induction fids with
  | nil => rfl
  | cons fid rest ih =>
    unfold remainingValues at ih
    simp [countdown, remainingValues, ih, List.range_succ]

theorem fidValues_countdown (c dev gid : Nat) (fids : List Nat) :
    fidValues (countdown c dev gid fids) = fids := by
  induction fids with
  | nil => rfl
  | cons fid rest ih =>
    unfold fidValues at ih
    simp [countdown, fidValues, ih]

theorem range_reverse_decreasing (n : Nat) :
    List.Pairwise (fun a b => b < a) (List.range n).reverse := by
  rw [List.pairwise_reverse]
  exact List.pairwise_lt_range n

/-- What `enumerate` does when the trustlet query succeeds on a vector whose
size fits `size_t` and a callback is registered. -/
theorem enumerate_registered (T : Trustlet) (s : BiometricsFingerprint) (c : Nat)
    (hcb : s.mClientCallback = some c) (hrc : (T.GetPrintIds s.mGid).1 = 0)
    (hsz : (T.GetPrintIds s.mGid).2.length < SIZE_MOD) :
    (enumerate T s).ret = some RequestStatus.SYS_OK ∧
    (enumerate T s).state = s ∧
    (enumerate T s).events =
      [Event.trustlet (TrustletCall.GetPrintIds s.mGid),
       Event.log (LogMsg.enumerating (T.GetPrintIds s.mGid).2.length)] ++
        completeReport c s.thisAddr s.mGid (T.GetPrintIds s.mGid).2 := by
  have hmod : (T.GetPrintIds s.mGid).2.length % SIZE_MOD = (T.GetPrintIds s.mGid).2.length :=
    Nat.mod_eq_of_lt hsz
  by_cases hnil : (T.GetPrintIds s.mGid).2 = []
  · simp [enumerate, hrc, hcb, hnil, completeReport]
  · have hpos : (T.GetPrintIds s.mGid).2.length ≠ 0 := by
      simpa [List.length_eq_zero] using hnil
    simp [enumerate, hrc, hcb, hnil, completeReport, hmod, hpos,
      enumerateLoop_registered c s.thisAddr s.mGid _ hsz]

/-! ## Enumeration -/

/-- C1, the claim refuted: on the object the constructor yields (no callback
registered yet) the trustlet reports, with return code 0, the three print ids
7, 3, 9 for the active group, and `enumerate` emits no callback at all, not
three, and does not return. -/
theorem enumerate_unregistered_emits_nothing :
    (construct (trustletReporting [7, 3, 9]) 4096 [1, 2, 3] 10).2 =
      Construction.constructed freshObject ∧
    (trustletReporting [7, 3, 9]).GetPrintIds freshObject.mGid = (0, [7, 3, 9]) ∧
    callbacksOf (enumerate (trustletReporting [7, 3, 9]) freshObject).events = [] ∧
    (callbacksOf (enumerate (trustletReporting [7, 3, 9]) freshObject).events).length ≠ 3 ∧
    (enumerate (trustletReporting [7, 3, 9]) freshObject).ret = none := by
  refine ⟨rfl, rfl, ?_, ?_, ?_⟩ <;> decide

/-- C1 as amended: when a callback `c` is registered and the trustlet reports, with
return code 0, a non-empty vector `fids` of N print ids for the active group,
`enumerate` returns OK having made the one trustlet query and emitted exactly N
`onEnumerate` callbacks, the i-th being
`(thisAddr, fids[i], mGid, N - 1 - i)`: the `remaining` values are
N-1, ..., 0, strictly decreasing and ending in 0, and the fids are the
trustlet's, in the trustlet's order. -/
theorem enumerate_reports_in_order (T : Trustlet) (s : BiometricsFingerprint) (c : Nat)
    (fids : List Nat) (hcb : s.mClientCallback = some c)
    (hq : T.GetPrintIds s.mGid = (0, fids)) (hne : fids ≠ [])
    (hsz : fids.length < SIZE_MOD) :
    (enumerate T s).ret = some RequestStatus.SYS_OK ∧
    trustletCallsOf (enumerate T s).events = [TrustletCall.GetPrintIds s.mGid] ∧
    (callbacksOf (enumerate T s).events).length = fids.length ∧
    (∀ (i : Nat) (hi : i < fids.length),
      (callbacksOf (enumerate T s).events)[i]? =
        some (Event.onEnumerate c s.thisAddr (fids.get ⟨i, hi⟩) s.mGid (fids.length - 1 - i))) ∧
    remainingValues (enumerate T s).events = (List.range fids.length).reverse ∧
    List.Pairwise (fun a b => b < a) (remainingValues (enumerate T s).events) ∧
    (remainingValues (enumerate T s).events).getLast? = some 0 ∧
    fidValues (enumerate T s).events = fids := by
  have hrc : (T.GetPrintIds s.mGid).1 = 0 := by rw [hq]
  have hsz2 : (T.GetPrintIds s.mGid).2.length < SIZE_MOD := by rw [hq]; exact hsz
  obtain ⟨hret, -, hev⟩ := enumerate_registered T s c hcb hrc hsz2
  have hev2 : (enumerate T s).events =
      [Event.trustlet (TrustletCall.GetPrintIds s.mGid),
       Event.log (LogMsg.enumerating fids.length)] ++ countdown c s.thisAddr s.mGid fids := by
    rw [hev, hq]
    simp [completeReport, hne]
  have hcbs : callbacksOf (enumerate T s).events = countdown c s.thisAddr s.mGid fids := by
    rw [hev2]
    have h := callbacksOf_countdown c s.thisAddr s.mGid fids
    unfold callbacksOf at h ⊢
    simp [h]
  have hrem : remainingValues (enumerate T s).events = (List.range fids.length).reverse := by
    rw [hev2]
    have h := remainingValues_countdown c s.thisAddr s.mGid fids
    unfold remainingValues at h ⊢
    simp [h]
  have hpos : 0 < fids.length := List.length_pos.mpr hne
  refine ⟨hret, ?_, ?_, ?_, hrem, ?_, ?_, ?_⟩
  · rw [hev2]
    have h := trustletCallsOf_countdown c s.thisAddr s.mGid fids
    unfold trustletCallsOf at h ⊢
    simp [h]
  · rw [hcbs, countdown_length]
  · intro i hi
    rw [hcbs, countdown_getElem?]
    simp [List.getElem?_eq_getElem hi]
  · rw [hrem]
    exact range_reverse_decreasing fids.length
  · rw [hrem]
    obtain ⟨n, hn⟩ := Nat.exists_eq_succ_of_ne_zero (Nat.pos_iff_ne_zero.mp hpos)
    rw [hn, List.getLast?_reverse]
    simp [List.range_succ_eq_map]
  · rw [hev2]
    have h := fidValues_countdown c s.thisAddr s.mGid fids
    unfold fidValues at h ⊢
    simp [h]

/-- C1 as amended, at a concrete input: three prints 7, 3, 9 reported for group 10. -/
theorem enumerate_reports_in_order_witness :
    (enumerate (trustletReporting [7, 3, 9]) sampleObject).ret = some RequestStatus.SYS_OK ∧
    callbacksOf (enumerate (trustletReporting [7, 3, 9]) sampleObject).events =
      [Event.onEnumerate 1 4096 7 10 2, Event.onEnumerate 1 4096 3 10 1,
       Event.onEnumerate 1 4096 9 10 0] ∧
    remainingValues (enumerate (trustletReporting [7, 3, 9]) sampleObject).events =
      (List.range 3).reverse :=
  ⟨(enumerate_reports_in_order (trustletReporting [7, 3, 9]) sampleObject 1 [7, 3, 9]
      rfl rfl (by simp) (by simp [SIZE_MOD])).1,
   by decide,
   (enumerate_reports_in_order (trustletReporting [7, 3, 9]) sampleObject 1 [7, 3, 9]
      rfl rfl (by simp) (by simp [SIZE_MOD])).2.2.2.2.1⟩

/-- C2, the claim refuted: on the object the constructor yields (no callback
registered yet) the trustlet reports, with return code 0, an empty vector for
the active group, and `enumerate` emits no callback, not one, and does not
return OK: it does not return. -/
theorem enumerate_unregistered_no_sentinel :
    (construct (trustletReporting []) 4096 [1, 2, 3] 10).2 =
      Construction.constructed freshObject ∧
    (trustletReporting []).GetPrintIds freshObject.mGid = (0, []) ∧
    callbacksOf (enumerate (trustletReporting []) freshObject).events = [] ∧
    (enumerate (trustletReporting []) freshObject).ret = none ∧
    (enumerate (trustletReporting []) freshObject).ret ≠ some RequestStatus.SYS_OK := by
  refine ⟨rfl, rfl, ?_, ?_, ?_⟩ <;> decide

/-- C2 as amended: when a callback `c` is registered and the trustlet reports, with
return code 0, an empty vector for the active group, `enumerate` emits exactly
one callback, `(thisAddr, fid = 0, mGid, remaining = 0)`, and returns OK with
the object unchanged. -/
theorem enumerate_empty_sentinel (T : Trustlet) (s : BiometricsFingerprint) (c : Nat)
    (hcb : s.mClientCallback = some c) (hq : T.GetPrintIds s.mGid = (0, [])) :
    (enumerate T s).ret = some RequestStatus.SYS_OK ∧
    callbacksOf (enumerate T s).events = [Event.onEnumerate c s.thisAddr 0 s.mGid 0] ∧
    trustletCallsOf (enumerate T s).events = [TrustletCall.GetPrintIds s.mGid] ∧
    (enumerate T s).state = s := by
  simp [enumerate, hq, hcb, callbacksOf, trustletCallsOf]

/-- C2 as amended, at a concrete input: no prints enrolled for group 10. -/
theorem enumerate_empty_sentinel_witness :
    (enumerate (trustletReporting []) sampleObject).ret = some RequestStatus.SYS_OK ∧
    callbacksOf (enumerate (trustletReporting []) sampleObject).events =
      [Event.onEnumerate 1 4096 0 10 0] ∧
    trustletCallsOf (enumerate (trustletReporting []) sampleObject).events =
      [TrustletCall.GetPrintIds 10] ∧
    (enumerate (trustletReporting []) sampleObject).state = sampleObject :=
  enumerate_empty_sentinel (trustletReporting []) sampleObject 1 rfl rfl

/-- C3, the claim refuted: on the object the constructor yields (no callback
registered yet) the trustlet query answers code 0 with the two print ids 7, 3,
and `enumerate` neither returns OK after the complete report nor returns a
failure code: it emits nothing and does not return. -/
theorem enumerate_unregistered_no_status :
    (construct (trustletReporting [7, 3]) 4096 [1, 2, 3] 10).2 =
      Construction.constructed freshObject ∧
    (trustletReporting [7, 3]).GetPrintIds freshObject.mGid = (0, [7, 3]) ∧
    (enumerate (trustletReporting [7, 3]) freshObject).ret = none ∧
    (enumerate (trustletReporting [7, 3]) freshObject).ret ≠ some RequestStatus.SYS_OK ∧
    (enumerate (trustletReporting [7, 3]) freshObject).ret ≠ some RequestStatus.SYS_EINVAL ∧
    callbacksOf (enumerate (trustletReporting [7, 3]) freshObject).events = [] := by
  refine ⟨rfl, rfl, ?_, ?_, ?_, ?_⟩ <;> decide

/-- C3 as amended: for a vector whose size fits `size_t`, a non-zero code of
the trustlet query makes `enumerate` return invalid-argument with no callback
emitted and the object unchanged, whether or not a callback is registered.
When a callback `c` is registered, `enumerate` returns invalid-argument exactly
when the code is non-zero; for a zero code it returns OK and the callbacks
emitted are the complete report; so for every trustlet response it either
returns OK having emitted the complete report or returns invalid-argument
having emitted nothing: there is no partial emission. -/
theorem enumerate_all_or_nothing (T : Trustlet) (s : BiometricsFingerprint)
    (hsz : (T.GetPrintIds s.mGid).2.length < SIZE_MOD) :
    ((T.GetPrintIds s.mGid).1 ≠ 0 →
      (enumerate T s).ret = some RequestStatus.SYS_EINVAL ∧
      callbacksOf (enumerate T s).events = [] ∧ (enumerate T s).state = s) ∧
    (∀ c : Nat, s.mClientCallback = some c →
      ((enumerate T s).ret = some RequestStatus.SYS_EINVAL ↔ (T.GetPrintIds s.mGid).1 ≠ 0) ∧
      ((T.GetPrintIds s.mGid).1 = 0 →
        (enumerate T s).ret = some RequestStatus.SYS_OK ∧
        callbacksOf (enumerate T s).events =
          completeReport c s.thisAddr s.mGid (T.GetPrintIds s.mGid).2) ∧
      (((enumerate T s).ret = some RequestStatus.SYS_OK ∧
          callbacksOf (enumerate T s).events =
            completeReport c s.thisAddr s.mGid (T.GetPrintIds s.mGid).2) ∨
        ((enumerate T s).ret = some RequestStatus.SYS_EINVAL ∧
          callbacksOf (enumerate T s).events = []))) := by
  have hfail : (T.GetPrintIds s.mGid).1 ≠ 0 →
      (enumerate T s).ret = some RequestStatus.SYS_EINVAL ∧
      callbacksOf (enumerate T s).events = [] ∧ (enumerate T s).state = s := by
    intro h
    simp [enumerate, h, callbacksOf]
  have hreport : ∀ c : Nat, callbacksOf (completeReport c s.thisAddr s.mGid
      (T.GetPrintIds s.mGid).2) = completeReport c s.thisAddr s.mGid (T.GetPrintIds s.mGid).2 := by
    intro c
    unfold completeReport
    split
    · simp [callbacksOf]
    · exact callbacksOf_countdown c s.thisAddr s.mGid _
  have hok : ∀ c : Nat, (T.GetPrintIds s.mGid).1 = 0 → s.mClientCallback = some c →
      (enumerate T s).ret = some RequestStatus.SYS_OK ∧
      callbacksOf (enumerate T s).events =
        completeReport c s.thisAddr s.mGid (T.GetPrintIds s.mGid).2 := by
    intro c hrc hcb
    obtain ⟨hret, -, hev⟩ := enumerate_registered T s c hcb hrc hsz
    refine ⟨hret, ?_⟩
    rw [hev]
    have h := hreport c
    unfold callbacksOf at h ⊢
    simp [h]
  refine ⟨hfail, ?_⟩
  intro c hcb
  refine ⟨?_, fun hrc => hok c hrc hcb, ?_⟩
  · constructor
    · intro hret hrc
      rw [(hok c hrc hcb).1] at hret
      cases hret
    · intro h
      exact (hfail h).1
  · by_cases hrc : (T.GetPrintIds s.mGid).1 = 0
    · exact Or.inl (hok c hrc hcb)
    · exact Or.inr ⟨(hfail hrc).1, (hfail hrc).2.1⟩

/-- C3 as amended, at concrete inputs: with callback 1 registered, a query
answering code 0 with ids 7, 3 gives OK and the two callbacks; a query failing
with code -5 after the trustlet already wrote two ids into the vector gives
invalid-argument and no callback. -/
theorem enumerate_all_or_nothing_witness :
    ((enumerate (trustletReporting [7, 3]) sampleObject).ret = some RequestStatus.SYS_OK ∧
      callbacksOf (enumerate (trustletReporting [7, 3]) sampleObject).events =
        [Event.onEnumerate 1 4096 7 10 1, Event.onEnumerate 1 4096 3 10 0]) ∧
    ((enumerate (trustletRejecting (-5) [7, 3]) sampleObject).ret =
        some RequestStatus.SYS_EINVAL ∧
      callbacksOf (enumerate (trustletRejecting (-5) [7, 3]) sampleObject).events = []) :=
  ⟨((enumerate_all_or_nothing (trustletReporting [7, 3]) sampleObject
      (by simp [trustletReporting, SIZE_MOD])).2 1 rfl).2.1 rfl,
   ⟨((enumerate_all_or_nothing (trustletRejecting (-5) [7, 3]) sampleObject
      (by simp [trustletRejecting, SIZE_MOD])).1 (by decide)).1,
    ((enumerate_all_or_nothing (trustletRejecting (-5) [7, 3]) sampleObject
      (by simp [trustletRejecting, SIZE_MOD])).1 (by decide)).2.1⟩⟩

/-! ## Group-scoped operations -/

/-- C4: `enroll`, `remove` and `authenticate`, called with a group id
different from the active one, return invalid-argument, emit no callback, make
no trustlet call and leave the object (active group id, registered callback)
unchanged, whatever the object and the other arguments are. -/
theorem group_mismatch_rejected (s : BiometricsFingerprint) (gid : Nat)
    (hat : Option (List Nat)) (timeoutSec fid operationId : Nat) (hgid : gid ≠ s.mGid) :
    ((enroll s hat gid timeoutSec).ret = some RequestStatus.SYS_EINVAL ∧
      callbacksOf (enroll s hat gid timeoutSec).events = [] ∧
      trustletCallsOf (enroll s hat gid timeoutSec).events = [] ∧
      (enroll s hat gid timeoutSec).state = s) ∧
    ((remove s gid fid).ret = some RequestStatus.SYS_EINVAL ∧
      callbacksOf (remove s gid fid).events = [] ∧
      trustletCallsOf (remove s gid fid).events = [] ∧
      (remove s gid fid).state = s) ∧
    ((authenticate s operationId gid).ret = some RequestStatus.SYS_EINVAL ∧
      callbacksOf (authenticate s operationId gid).events = [] ∧
      trustletCallsOf (authenticate s operationId gid).events = [] ∧
      (authenticate s operationId gid).state = s) := by
  simp [enroll, remove, authenticate, hgid, callbacksOf, trustletCallsOf]

/-- C4 at a concrete input: group 11 while group 10 is active. -/
theorem group_mismatch_rejected_witness :
    (enroll sampleObject (some zeroToken) 11 60).ret = some RequestStatus.SYS_EINVAL ∧
    (remove sampleObject 11 7).ret = some RequestStatus.SYS_EINVAL ∧
    (authenticate sampleObject 99 11).ret = some RequestStatus.SYS_EINVAL ∧
    (authenticate sampleObject 99 11).state = sampleObject :=
  ⟨(group_mismatch_rejected sampleObject 11 (some zeroToken) 60 7 99 (by decide)).1.1,
   (group_mismatch_rejected sampleObject 11 (some zeroToken) 60 7 99 (by decide)).2.1.1,
   (group_mismatch_rejected sampleObject 11 (some zeroToken) 60 7 99 (by decide)).2.2.1,
   (group_mismatch_rejected sampleObject 11 (some zeroToken) 60 7 99 (by decide)).2.2.2.2.2⟩

/-- C5: `setActiveGroup g p` always returns; afterwards the active group id is
`g` and nothing else of the object changed; it makes exactly one trustlet
call, `SetUserDataPath g p`, emits no callback, and returns invalid-argument
when that call answers non-zero and OK when it answers zero.  In particular a
rejected binding returns invalid-argument with the active group id already
`g`. -/
theorem setActiveGroup_unconditional (T : Trustlet) (s : BiometricsFingerprint)
    (g : Nat) (p : String) :
    (setActiveGroup T s g p).state.mGid = g ∧
    (setActiveGroup T s g p).state = { s with mGid := g } ∧
    trustletCallsOf (setActiveGroup T s g p).events = [TrustletCall.SetUserDataPath g p] ∧
    callbacksOf (setActiveGroup T s g p).events = [] ∧
    (T.SetUserDataPath g p ≠ 0 →
      (setActiveGroup T s g p).ret = some RequestStatus.SYS_EINVAL ∧
      (setActiveGroup T s g p).state.mGid = g) ∧
    (T.SetUserDataPath g p = 0 →
      (setActiveGroup T s g p).ret = some RequestStatus.SYS_OK) := by
  refine ⟨rfl, rfl, ?_, ?_, ?_, ?_⟩
  · simp [setActiveGroup, trustletCallsOf]
  · simp [setActiveGroup, callbacksOf]
  · intro h
    simp [setActiveGroup, h]
  · intro h
    simp [setActiveGroup, h]

/-- C5 at a concrete input: the trustlet rejects the binding with code 3 while
group 10 is active; the call reports invalid-argument and group 42 is active. -/
theorem setActiveGroup_unconditional_witness :
    (setActiveGroup (trustletRejecting 3 []) sampleObject 42 "/data/vendor_de/0/fpdata").ret =
      some RequestStatus.SYS_EINVAL ∧
    (setActiveGroup (trustletRejecting 3 []) sampleObject 42 "/data/vendor_de/0/fpdata").state.mGid =
      42 :=
  (setActiveGroup_unconditional (trustletRejecting 3 []) sampleObject 42
    "/data/vendor_de/0/fpdata").2.2.2.2.1 (by decide)

/-- C6, the claim refuted: with the active group id, `enroll` on a present
all-zero 69-byte token does not return invalid-argument; it returns fault. -/
theorem enroll_zero_token_not_rejected :
    zeroToken.length = 69 ∧
    (enroll sampleObject (some zeroToken) sampleObject.mGid 60).ret =
      some RequestStatus.SYS_EFAULT ∧
    (enroll sampleObject (some zeroToken) sampleObject.mGid 60).ret ≠
      some RequestStatus.SYS_EINVAL := by
  decide

/-- C6 as amended: with the active group id, `enroll` returns invalid-argument
exactly when the token pointer is null; a present token is not inspected and
gets the fault status, whatever its bytes; `authenticate` has no token
argument and returns fault; neither call invokes the trustlet or emits a
callback. -/
theorem token_check_is_null_check (s : BiometricsFingerprint) (hat : Option (List Nat))
    (gid timeoutSec operationId : Nat) (hgid : gid = s.mGid) :
    ((enroll s hat gid timeoutSec).ret = some RequestStatus.SYS_EINVAL ↔ hat = none) ∧
    (∀ h : List Nat, hat = some h →
      (enroll s hat gid timeoutSec).ret = some RequestStatus.SYS_EFAULT) ∧
    trustletCallsOf (enroll s hat gid timeoutSec).events = [] ∧
    callbacksOf (enroll s hat gid timeoutSec).events = [] ∧
    (authenticate s operationId gid).ret = some RequestStatus.SYS_EFAULT ∧
    trustletCallsOf (authenticate s operationId gid).events = [] ∧
    callbacksOf (authenticate s operationId gid).events = [] := by
  subst hgid
  cases hat with
  | none => simp [enroll, authenticate, trustletCallsOf, callbacksOf]
  | some h => simp [enroll, authenticate, trustletCallsOf, callbacksOf]

/-- C6 as amended, at a concrete input: a null token pointer with the active
group id is rejected. -/
theorem token_check_is_null_check_witness :
    (enroll sampleObject none 10 60).ret = some RequestStatus.SYS_EINVAL ∧
    trustletCallsOf (enroll sampleObject none 10 60).events = [] :=
  ⟨(token_check_is_null_check sampleObject none 10 60 99 rfl).1.mpr rfl,
   (token_check_is_null_check sampleObject none 10 60 99 rfl).2.2.1⟩

/-- C9: after `setActiveGroup g p`, whatever the trustlet answered, the active
group id is `g`, so a following `enroll`, `remove` or `authenticate` with group
id `g` does not take the group-mismatch rejection: none of them logs the
mismatch diagnostic; `remove` and `authenticate` return fault; `enroll` returns
fault for a present token and returns invalid-argument only for a null token
pointer. -/
theorem setActiveGroup_then_same_group (T : Trustlet) (s : BiometricsFingerprint)
    (g : Nat) (p : String) (hat : Option (List Nat)) (timeoutSec fid operationId : Nat) :
    (setActiveGroup T s g p).state.mGid = g ∧
    (Event.log LogMsg.enrollGidMismatch ∉
        (enroll (setActiveGroup T s g p).state hat g timeoutSec).events ∧
      ((enroll (setActiveGroup T s g p).state hat g timeoutSec).ret =
          some RequestStatus.SYS_EINVAL → hat = none) ∧
      (∀ h : List Nat, hat = some h →
        (enroll (setActiveGroup T s g p).state hat g timeoutSec).ret =
          some RequestStatus.SYS_EFAULT)) ∧
    (Event.log LogMsg.removeGidMismatch ∉ (remove (setActiveGroup T s g p).state g fid).events ∧
      (remove (setActiveGroup T s g p).state g fid).ret = some RequestStatus.SYS_EFAULT) ∧
    (Event.log LogMsg.authenticateGidMismatch ∉
        (authenticate (setActiveGroup T s g p).state operationId g).events ∧
      (authenticate (setActiveGroup T s g p).state operationId g).ret =
        some RequestStatus.SYS_EFAULT) := by
  cases hat with
  | none => simp [setActiveGroup, enroll, remove, authenticate]
  | some h => simp [setActiveGroup, enroll, remove, authenticate]

/-- C10: `postEnroll` and `cancel` return fault for every object; `enroll` on
a present token, `authenticate` and `remove` return fault for every token,
timeout, operation id and fid whenever the group id is the active one; and
none of the five returns OK on any input at all (any group id, any token
pointer). -/
theorem unimplemented_paths_fault (s : BiometricsFingerprint) (gid : Nat) (h : List Nat)
    (timeoutSec fid operationId : Nat) (hgid : gid = s.mGid) :
    (postEnroll s).ret = some RequestStatus.SYS_EFAULT ∧
    (cancel s).ret = some RequestStatus.SYS_EFAULT ∧
    (enroll s (some h) gid timeoutSec).ret = some RequestStatus.SYS_EFAULT ∧
    (authenticate s operationId gid).ret = some RequestStatus.SYS_EFAULT ∧
    (remove s gid fid).ret = some RequestStatus.SYS_EFAULT ∧
    (∀ (anyGid : Nat) (anyHat : Option (List Nat)),
      (postEnroll s).ret ≠ some RequestStatus.SYS_OK ∧
      (cancel s).ret ≠ some RequestStatus.SYS_OK ∧
      (enroll s anyHat anyGid timeoutSec).ret ≠ some RequestStatus.SYS_OK ∧
      (authenticate s operationId anyGid).ret ≠ some RequestStatus.SYS_OK ∧
      (remove s anyGid fid).ret ≠ some RequestStatus.SYS_OK) := by
  subst hgid
  refine ⟨rfl, rfl, ?_, ?_, ?_, ?_⟩
  · simp [enroll]
  · simp [authenticate]
  · simp [remove]
  · intro anyGid anyHat
    refine ⟨by simp [postEnroll], by simp [cancel], ?_, ?_, ?_⟩
    · unfold enroll
      split
      · simp
      · cases anyHat <;> simp
    · unfold authenticate
      split <;> simp
    · unfold remove
      split <;> simp

/-- C10 at a concrete input: the active group 10 and an all-zero token. -/
theorem unimplemented_paths_fault_witness :
    (postEnroll sampleObject).ret = some RequestStatus.SYS_EFAULT ∧
    (cancel sampleObject).ret = some RequestStatus.SYS_EFAULT ∧
    (enroll sampleObject (some zeroToken) 10 60).ret = some RequestStatus.SYS_EFAULT ∧
    (authenticate sampleObject 99 10).ret = some RequestStatus.SYS_EFAULT ∧
    (remove sampleObject 10 7).ret = some RequestStatus.SYS_EFAULT :=
  ⟨(unimplemented_paths_fault sampleObject 10 zeroToken 60 7 99 rfl).1,
   (unimplemented_paths_fault sampleObject 10 zeroToken 60 7 99 rfl).2.1,
   (unimplemented_paths_fault sampleObject 10 zeroToken 60 7 99 rfl).2.2.1,
   (unimplemented_paths_fault sampleObject 10 zeroToken 60 7 99 rfl).2.2.2.1,
   (unimplemented_paths_fault sampleObject 10 zeroToken 60 7 99 rfl).2.2.2.2.1⟩

/-! ## Construction -/

/-- C7: the constructor runs SetDataPath, SetMasterKey, InitializeSensor,
InitializeAlgo, Calibrate in that order and aborts at the first of them that
answers non-zero: the trustlet calls made are exactly the steps up to and
including the failing one, the outcome is the fatal abort at that step with
its code, `SetWorkMode` is not called and no object results.  A non-zero
`InitializeSensor` always ends in an abort, and `SetWorkMode` is called only
if all five answered zero. -/
theorem construct_fail_fast (T : Trustlet) (a : Nat) (k : List Nat) (g : Nat) :
    (T.SetDataPath fpdataPath ≠ 0 →
      (construct T a k g).2 = Construction.aborted FatalStep.SetDataPath (T.SetDataPath fpdataPath) ∧
      trustletCallsOf (construct T a k g).1 = [TrustletCall.SetDataPath fpdataPath]) ∧
    (T.SetDataPath fpdataPath = 0 → T.SetMasterKey k ≠ 0 →
      (construct T a k g).2 = Construction.aborted FatalStep.SetMasterKey (T.SetMasterKey k) ∧
      trustletCallsOf (construct T a k g).1 =
        [TrustletCall.SetDataPath fpdataPath, TrustletCall.SetMasterKey k]) ∧
    (T.SetDataPath fpdataPath = 0 → T.SetMasterKey k = 0 → T.InitializeSensor ≠ 0 →
      (construct T a k g).2 = Construction.aborted FatalStep.InitializeSensor T.InitializeSensor ∧
      trustletCallsOf (construct T a k g).1 =
        [TrustletCall.SetDataPath fpdataPath, TrustletCall.SetMasterKey k,
         TrustletCall.InitializeSensor]) ∧
    (T.SetDataPath fpdataPath = 0 → T.SetMasterKey k = 0 → T.InitializeSensor = 0 →
      T.InitializeAlgo ≠ 0 →
      (construct T a k g).2 = Construction.aborted FatalStep.InitializeAlgo T.InitializeAlgo ∧
      trustletCallsOf (construct T a k g).1 =
        [TrustletCall.SetDataPath fpdataPath, TrustletCall.SetMasterKey k,
         TrustletCall.InitializeSensor, TrustletCall.InitializeAlgo]) ∧
    (T.SetDataPath fpdataPath = 0 → T.SetMasterKey k = 0 → T.InitializeSensor = 0 →
      T.InitializeAlgo = 0 → T.Calibrate ≠ 0 →
      (construct T a k g).2 = Construction.aborted FatalStep.Calibrate T.Calibrate ∧
      trustletCallsOf (construct T a k g).1 =
        [TrustletCall.SetDataPath fpdataPath, TrustletCall.SetMasterKey k,
         TrustletCall.InitializeSensor, TrustletCall.InitializeAlgo, TrustletCall.Calibrate]) ∧
    ((T.SetDataPath fpdataPath ≠ 0 ∨ T.SetMasterKey k ≠ 0 ∨ T.InitializeSensor ≠ 0 ∨
        T.InitializeAlgo ≠ 0 ∨ T.Calibrate ≠ 0) →
      (construct T a k g).2.isAborted = true ∧
      (construct T a k g).2.isConstructed = false ∧
      TrustletCall.SetWorkMode 2 ∉ trustletCallsOf (construct T a k g).1) ∧
    (T.InitializeSensor ≠ 0 → (construct T a k g).2.isAborted = true) ∧
    (TrustletCall.SetWorkMode 2 ∈ trustletCallsOf (construct T a k g).1 →
      T.SetDataPath fpdataPath = 0 ∧ T.SetMasterKey k = 0 ∧ T.InitializeSensor = 0 ∧
      T.InitializeAlgo = 0 ∧ T.Calibrate = 0) := by
  by_cases h1 : T.SetDataPath fpdataPath = 0 <;>
  by_cases h2 : T.SetMasterKey k = 0 <;>
  by_cases h3 : T.InitializeSensor = 0 <;>
  by_cases h4 : T.InitializeAlgo = 0 <;>
  by_cases h5 : T.Calibrate = 0 <;>
  by_cases h6 : T.SetWorkMode 2 = 0 <;>
  simp [construct, trustletCallsOf, Construction.isAborted, Construction.isConstructed,
    h1, h2, h3, h4, h5, h6]

/-- C7 at a concrete input: `InitializeSensor` answers -1, the earlier steps
answer 0. -/
theorem construct_fail_fast_witness :
    (construct (trustletSensorFails (-1)) 4096 [1, 2, 3] 0).2 =
      Construction.aborted FatalStep.InitializeSensor (-1) ∧
    trustletCallsOf (construct (trustletSensorFails (-1)) 4096 [1, 2, 3] 0).1 =
      [TrustletCall.SetDataPath fpdataPath, TrustletCall.SetMasterKey [1, 2, 3],
       TrustletCall.InitializeSensor] :=
  (construct_fail_fast (trustletSensorFails (-1)) 4096 [1, 2, 3] 0).2.2.1 rfl rfl (by decide)

/-- C8, the claim refuted: with every step through `Calibrate` answering 0 and
`SetWorkMode` answering 1, the constructor ends by throwing; no object
results. -/
theorem construct_workmode_failure_no_object :
    (trustletWorkModeFails 1).SetDataPath fpdataPath = 0 ∧
    (trustletWorkModeFails 1).SetMasterKey [1, 2, 3] = 0 ∧
    (trustletWorkModeFails 1).InitializeSensor = 0 ∧
    (trustletWorkModeFails 1).InitializeAlgo = 0 ∧
    (trustletWorkModeFails 1).Calibrate = 0 ∧
    (trustletWorkModeFails 1).SetWorkMode 2 ≠ 0 ∧
    (construct (trustletWorkModeFails 1) 4096 [1, 2, 3] 0).2 = Construction.threw 1 ∧
    (construct (trustletWorkModeFails 1) 4096 [1, 2, 3] 0).2.isConstructed = false := by
  refine ⟨rfl, rfl, rfl, rfl, rfl, by decide, rfl, rfl⟩

/-- C8 as amended: when every step through `Calibrate` answers 0 and
`SetWorkMode` answers non-zero, all six trustlet steps have been made, the
process is not aborted, and the constructor ends by throwing an exception
that carries the code; no object results. -/
theorem construct_workmode_failure_throws (T : Trustlet) (a : Nat) (k : List Nat) (g : Nat)
    (h1 : T.SetDataPath fpdataPath = 0) (h2 : T.SetMasterKey k = 0)
    (h3 : T.InitializeSensor = 0) (h4 : T.InitializeAlgo = 0) (h5 : T.Calibrate = 0)
    (h6 : T.SetWorkMode 2 ≠ 0) :
    (construct T a k g).2 = Construction.threw (T.SetWorkMode 2) ∧
    (construct T a k g).2.isAborted = false ∧
    (construct T a k g).2.isConstructed = false ∧
    trustletCallsOf (construct T a k g).1 =
      [TrustletCall.SetDataPath fpdataPath, TrustletCall.SetMasterKey k,
       TrustletCall.InitializeSensor, TrustletCall.InitializeAlgo, TrustletCall.Calibrate,
       TrustletCall.SetWorkMode 2] := by
  simp [construct, trustletCallsOf, Construction.isAborted, Construction.isConstructed,
    h1, h2, h3, h4, h5, h6]

/-- C8 as amended, at a concrete input: `SetWorkMode` answers 7. -/
theorem construct_workmode_failure_throws_witness :
    (construct (trustletWorkModeFails 7) 4096 [1, 2, 3] 0).2 = Construction.threw 7 ∧
    (construct (trustletWorkModeFails 7) 4096 [1, 2, 3] 0).2.isAborted = false :=
  ⟨(construct_workmode_failure_throws (trustletWorkModeFails 7) 4096 [1, 2, 3] 0
      rfl rfl rfl rfl rfl (by decide)).1,
   (construct_workmode_failure_throws (trustletWorkModeFails 7) 4096 [1, 2, 3] 0
      rfl rfl rfl rfl rfl (by decide)).2.1⟩

end egistec.ganges
